import Mathlib

/-!
Shallow embedding of the castafiore-backend audio library scanner
(package internal/library: scanner.go and scanner_optimized.go) and
proofs about its specification claims.

Modelling conventions:
  * Machine integers (Go int / int64 / byte) are modelled as Nat where the
    source only ever holds non-negative values (counts, sizes, table
    entries), and as Int where sign matters (mod times, year fields).
  * File contents are lists of byte values (Nat < 256); an unreadable file
    (os.Open error) is Option.none.
  * Go float64 arithmetic on the success paths of the extractors is
    modelled over the rationals; the fallback paths are pure integer
    arithmetic in the source and are modelled exactly.
  * SQL stores are modelled as in-memory lists of rows; errors of the
    store itself (connection loss, constraint violations) are injected
    through explicit Boolean oracles, since they are environmental.
-/

namespace Castafiore

/-- Characters stripped by Go strings.TrimSpace (unicode.IsSpace on the
whitespace characters that can appear in tags). -/
def goIsSpace (c : Char) : Bool :=
  c == ' ' || c == '\t' || c == '\n' || c == '\x0b' || c == '\x0c' || c == '\r' ||
  c == '\x85' || c == '\xa0'

/-- Go strings.TrimSpace. -/
def trimSpace (s : String) : String :=
  String.mk (((s.toList.dropWhile goIsSpace).reverse.dropWhile goIsSpace).reverse)

/-- cleanString (scanner.go) / cleanStringOptimized (scanner_optimized.go),
textually identical in the two source files: trim whitespace, remove NUL
bytes and U+FFFD replacement characters, cap the length at 255 (the Go
code caps at 255 bytes; modelled as 255 characters - the difference only
matters for multi-byte strings longer than the cap). -/
def cleanString (input : String) : String :=
  let cs := (trimSpace input).toList
  let cs := cs.filter (fun c => c != '\x00')
  let cs := cs.filter (fun c => c != '�')
  if cs.length > 255 then String.mk (cs.take 255) else String.mk cs

/-- cleanStringOptimized of scanner_optimized.go is the same code as
cleanString of scanner.go. -/
def cleanStringOptimized (input : String) : String := cleanString input

/-- Go filepath.Base: strip trailing separators, return the last element. -/
def filepathBase (p : String) : String :=
  if p = "" then "."
  else
    let rcs := p.toList.reverse.dropWhile (fun c => c == '/')
    let base := (rcs.takeWhile (fun c => c != '/')).reverse
    if base.isEmpty then "/" else String.mk base

/-- Go filepath.Ext: the suffix of the path starting at the final dot of
the last path element; empty when that element has no dot. -/
def filepathExt (p : String) : String :=
  let seg := p.toList.reverse.takeWhile (fun c => c != '/')
  if seg.contains '.' then String.mk ('.' :: (seg.takeWhile (fun c => c != '.')).reverse)
  else ""

/-- strings.ToLower, restricted to ASCII (extensions are ASCII). -/
def toLowerAscii (s : String) : String := String.mk (s.toList.map Char.toLower)

/-- isAudioFile, identical in both scanners: recognized audio extensions. -/
def isAudioFile (path : String) : Bool :=
  let ext := toLowerAscii (filepathExt path)
  ext == ".mp3" || ext == ".flac" || ext == ".ogg" || ext == ".m4a" || ext == ".wav"

/-- The container-format tag used by the extractors: the lowercased
extension without its leading dot. -/
def formatOfPath (path : String) : String :=
  let ext := toLowerAscii (filepathExt path)
  if ext.startsWith "." then ext.drop 1 else ext

/-! ## Optimization Selector (scanner_optimized.go, SetOptimizationMode) -/

structure OptimizationMode where
  batchSize : Nat
  workerCount : Nat
  skipCoverArt : Bool
deriving DecidableEq, Repr

/-- SetOptimizationMode: pure function of the total candidate count. -/
def setOptimizationMode (totalFiles : Nat) : OptimizationMode :=
  if totalFiles > 100000 then ⟨500, 8, true⟩
  else if totalFiles > 10000 then ⟨200, 6, false⟩
  else ⟨50, 2, false⟩

/-! ## MP3 header lookup tables (scanner.go) -/

/-- Bitrate table for MPEG 1 Layer III. -/
def bitrateTableV1L3 : List Nat := [0, 32, 40, 48, 56, 64, 80, 96, 112, 128, 160, 192, 224, 256, 320, 0]

/-- Bitrate table for MPEG 2 / 2.5 Layer III. -/
def bitrateTableV2L3 : List Nat := [0, 8, 16, 24, 32, 40, 48, 56, 64, 80, 96, 112, 128, 144, 160, 0]

/-- getMP3Bitrate (scanner.go); the layer argument is accepted but unused
in the source (Layer III is assumed). -/
def getMP3Bitrate (version _layer bitrateIndex : Nat) : Nat :=
  if 15 ≤ bitrateIndex then 0
  else if version == 3 then bitrateTableV1L3.getD bitrateIndex 0
  else bitrateTableV2L3.getD bitrateIndex 0

/-- getMP3SampleRate (scanner.go): version-keyed sample-rate table. -/
def getMP3SampleRate (version sampleRateIndex : Nat) : Nat :=
  if version == 3 then
    (if sampleRateIndex < 3 then [44100, 48000, 32000, 0].getD sampleRateIndex 0 else 0)
  else if version == 2 then
    (if sampleRateIndex < 3 then [22050, 24000, 16000, 0].getD sampleRateIndex 0 else 0)
  else if version == 0 then
    (if sampleRateIndex < 3 then [11025, 12000, 8000, 0].getD sampleRateIndex 0 else 0)
  else 0

/-! ## Binary Metadata Extractor (scanner.go)

File contents are modelled as lists of byte values; Option.none models a
file that cannot be opened. Reads of a fixed-size buffer are modelled by
indexing with byteAt (missing bytes read as 0, matching Go's
zero-initialized buffers on short reads); a read call fails exactly when
it starts at or past end of file. Out-of-range slice indexing that would
panic in Go (STREAMINFO or fmt chunks shorter than the accessed offsets)
is modelled as reading 0. Float64 arithmetic of the success paths is
modelled over ℚ. -/

/-- Byte at an index, 0 beyond end (Go zero-initialized buffers). -/
def byteAt (bs : List Nat) (i : Nat) : Nat := bs.getD i 0

/-- The flat fallback estimate in whole seconds:
fileSize times 8 over (bitrate times 1000), integer division, exactly the
source expression fileSize*8/(int64(bitrate)*1000). -/
def flatSeconds (fileSize bitrate : Nat) : Nat := fileSize * 8 / (bitrate * 1000)

/-- Go float64-to-int conversion (truncation toward zero) on a rational. -/
def goFloatToInt (q : ℚ) : Int := Int.sign q.num * ((q.num.natAbs / q.den : Nat) : Int)

/-- Two's-complement reading of a 64-bit pattern as Go int64. -/
def int64OfBits (v : Nat) : Int := if v < 2 ^ 63 then (v : Int) else (v : Int) - 2 ^ 64

/-- Little-endian 32-bit value at an offset. -/
def le32At (buf : List Nat) (i : Nat) : Nat :=
  byteAt buf i ||| (byteAt buf (i+1) <<< 8) ||| (byteAt buf (i+2) <<< 16) |||
  (byteAt buf (i+3) <<< 24)

/-- Little-endian 64-bit value at an offset. -/
def le64At (buf : List Nat) (i : Nat) : Nat :=
  byteAt buf i ||| (byteAt buf (i+1) <<< 8) ||| (byteAt buf (i+2) <<< 16) |||
  (byteAt buf (i+3) <<< 24) ||| (byteAt buf (i+4) <<< 32) ||| (byteAt buf (i+5) <<< 40) |||
  (byteAt buf (i+6) <<< 48) ||| (byteAt buf (i+7) <<< 56)

/-- The frame-scanning loop of extractMP3Properties. State: read position,
frames seen, summed bitrate, last assigned sample rate (the source assigns
the outer sampleRate variable even when the table yields 0). Fuel bounds
the iteration count; each iteration advances the position by at least 4,
so fuel = length + 1 is never exhausted before the natural exit. -/
def mp3ScanLoop (bytes : List Nat) : Nat → Nat → Nat → Nat → Nat → Nat × Nat × Nat
  | 0, _, tf, tb, sr => (tf, tb, sr)
  | fuel+1, pos, tf, tb, sr =>
    if bytes.length < pos + 4 then (tf, tb, sr)
    else
      let b1 := byteAt bytes (pos+1)
      let b2 := byteAt bytes (pos+2)
      if byteAt bytes pos == 0xFF && (b1 &&& 0xE0) == 0xE0 then
        let version := (b1 >>> 3) &&& 0x03
        let layer := (b1 >>> 1) &&& 0x03
        let bitrateIndex := (b2 >>> 4) &&& 0x0F
        let sampleRateIndex := (b2 >>> 2) &&& 0x03
        let bitrate := getMP3Bitrate version layer bitrateIndex
        if bitrate == 0 then mp3ScanLoop bytes fuel (pos+4) tf tb sr
        else
          let sampleRate := getMP3SampleRate version sampleRateIndex
          if sampleRate == 0 then mp3ScanLoop bytes fuel (pos+4) tf tb sampleRate
          else
            let padding := (b2 >>> 1) &&& 0x01
            let frameSize := 144 * bitrate * 1000 / sampleRate + padding
            let pos2 := if 4 < frameSize then pos + 4 + (frameSize - 4) else pos + 4
            if 100 ≤ tf + 1 then (tf + 1, tb + bitrate, sampleRate)
            else mp3ScanLoop bytes fuel pos2 (tf + 1) (tb + bitrate) sampleRate
      else mp3ScanLoop bytes fuel (pos+4) tf tb sr

/-- extractMP3Properties (scanner.go): average the bitrate over up to 100
sampled frames; duration from file size and average bitrate; fall back to
a flat 128 kbps estimate when no usable frame is found or the file cannot
be opened. -/
def extractMP3Properties (file : Option (List Nat)) (fileSize : Nat) : ℚ × Int :=
  match file with
  | none => ((flatSeconds fileSize 128 : ℚ), 128)
  | some bytes =>
    let r := mp3ScanLoop bytes (bytes.length + 1) 0 0 0 0
    if 0 < r.1 ∧ 0 < r.2.2 then
      let avgBitrate := r.2.1 / r.1
      if 0 < avgBitrate then
        (((fileSize * 8 : Nat) : ℚ) / ((avgBitrate * 1000 : Nat) : ℚ), (avgBitrate : Int))
      else ((flatSeconds fileSize 128 : ℚ), 128)
    else ((flatSeconds fileSize 128 : ℚ), 128)

/-- The bytes of the FLAC stream marker "fLaC". -/
def flacMagic : List Nat := [0x66, 0x4C, 0x61, 0x43]

/-- The metadata-block walk of extractFLACProperties, starting after the
4-byte magic. Returns some (duration, bitrate) when a well-formed
STREAMINFO block is found, none when the walk breaks (fallback). -/
def flacBlockLoop (bytes : List Nat) (fileSize : Nat) : Nat → Nat → Option (ℚ × Int)
  | 0, _ => none
  | fuel+1, pos =>
    if bytes.length < pos + 4 then none
    else
      let h0 := byteAt bytes pos
      let blockSize := ((byteAt bytes (pos+1)) <<< 16) ||| ((byteAt bytes (pos+2)) <<< 8) |||
        (byteAt bytes (pos+3))
      if h0 &&& 0x7F == 0 then
        if bytes.length = pos + 4 then none
        else
          let si := fun i => byteAt bytes (pos + 4 + i)
          let sampleRate := ((si 10) <<< 12) ||| ((si 11) <<< 4) ||| ((si 12) >>> 4)
          let totalSamples := (((si 13) &&& 0x0F) <<< 32) ||| ((si 14) <<< 24) |||
            ((si 15) <<< 16) ||| ((si 16) <<< 8) ||| (si 17)
          if 0 < sampleRate ∧ 0 < totalSamples then
            let duration : ℚ := (totalSamples : ℚ) / (sampleRate : ℚ)
            some (duration, goFloatToInt (((fileSize * 8 : Nat) : ℚ) / duration / 1000))
          else none
      else
        if h0 &&& 0x80 != 0 then none
        else flacBlockLoop bytes fileSize fuel (pos + 4 + blockSize)

/-- extractFLACProperties (scanner.go): verify the magic, walk metadata
blocks to STREAMINFO; fall back to a flat 1000 kbps estimate otherwise. -/
def extractFLACProperties (file : Option (List Nat)) (fileSize : Nat) : ℚ × Int :=
  match file with
  | none => ((flatSeconds fileSize 1000 : ℚ), 1000)
  | some bytes =>
    if bytes.take 4 ≠ flacMagic then ((flatSeconds fileSize 1000 : ℚ), 1000)
    else
      match flacBlockLoop bytes fileSize (bytes.length + 1) 4 with
      | some r => r
      | none => ((flatSeconds fileSize 1000 : ℚ), 1000)

/-- The bytes of the OGG capture pattern "OggS". -/
def oggMagic : List Nat := [0x4F, 0x67, 0x67, 0x53]

/-- Test for the capture pattern at an index of the tail buffer. -/
def isOggSAt (buf : List Nat) (i : Nat) : Bool :=
  byteAt buf i == 0x4F && byteAt buf (i+1) == 0x67 &&
  byteAt buf (i+2) == 0x67 && byteAt buf (i+3) == 0x53

/-- Backward scan of extractOGGProperties: indices count-1 down to 0; on
the first (hindmost) capture pattern read the 8-byte little-endian granule
position at offset 6 of that page. -/
def oggScanBack (buf : List Nat) : Nat → Option Nat
  | 0 => none
  | i+1 => if isOggSAt buf i then some (le64At buf (i+6)) else oggScanBack buf i

/-- extractOGGProperties (scanner.go): verify "OggS" at byte 0, scan the
last 64 KB backward for the final page, read its granule position and
assume 48 kHz; fall back to a flat 192 kbps estimate. When the file is
shorter than 64 KB the ignored Seek error leaves the read position at 27
(after the header read), exactly as in the source. -/
def extractOGGProperties (file : Option (List Nat)) (fileSize : Nat) : ℚ × Int :=
  match file with
  | none => ((flatSeconds fileSize 192 : ℚ), 192)
  | some bytes =>
    if bytes.take 4 ≠ oggMagic then ((flatSeconds fileSize 192 : ℚ), 192)
    else
      let start := if 65536 ≤ bytes.length then bytes.length - 65536 else 27
      let buf := (bytes.drop start).take 65536
      match oggScanBack buf (buf.length - 26) with
      | some v =>
        let lastGranule := int64OfBits v
        if 0 < lastGranule then
          let duration : ℚ := (lastGranule : ℚ) / (48000 : ℚ)
          (duration, goFloatToInt (((fileSize * 8 : Nat) : ℚ) / duration / 1000))
        else ((flatSeconds fileSize 192 : ℚ), 192)
      | none => ((flatSeconds fileSize 192 : ℚ), 192)

/-- The RIFF/WAVE header check of extractWAVProperties. -/
def wavRiffCheck (bytes : List Nat) : Bool :=
  byteAt bytes 0 == 0x52 && byteAt bytes 1 == 0x49 && byteAt bytes 2 == 0x46 &&
  byteAt bytes 3 == 0x46 && byteAt bytes 8 == 0x57 && byteAt bytes 9 == 0x41 &&
  byteAt bytes 10 == 0x56 && byteAt bytes 11 == 0x45

/-- The chunk walk of extractWAVProperties, starting after the 12-byte
RIFF header; on the fmt chunk prefer the byte rate, else derive from the
sample rate assuming 16-bit stereo; none means fallback. -/
def wavChunkLoop (bytes : List Nat) (fileSize : Nat) : Nat → Nat → Option (ℚ × Int)
  | 0, _ => none
  | fuel+1, pos =>
    if bytes.length < pos + 8 then none
    else
      let isFmt := byteAt bytes pos == 0x66 && byteAt bytes (pos+1) == 0x6D &&
        byteAt bytes (pos+2) == 0x74 && byteAt bytes (pos+3) == 0x20
      let chunkSize := le32At bytes (pos+4)
      if isFmt then
        if bytes.length = pos + 8 then none
        else
          let sampleRate := le32At bytes (pos + 8 + 4)
          let byteRate := le32At bytes (pos + 8 + 8)
          if 0 < byteRate then
            some ((((fileSize : Int) - 44 : Int) : ℚ) / (byteRate : ℚ),
              ((byteRate * 8 / 1000 : Nat) : Int))
          else if 0 < sampleRate then
            let bitrate := sampleRate * 16 * 2 / 1000
            some (((((fileSize : Int) - 44) * 8 : Int) : ℚ) / ((bitrate * 1000 : Nat) : ℚ),
              (bitrate : Int))
          else none
      else wavChunkLoop bytes fileSize fuel (pos + 8 + chunkSize)

/-- extractWAVProperties (scanner.go): verify RIFF/WAVE, walk chunks to
"fmt "; fall back to a flat 1411 kbps (CD quality) estimate. -/
def extractWAVProperties (file : Option (List Nat)) (fileSize : Nat) : ℚ × Int :=
  match file with
  | none => ((flatSeconds fileSize 1411 : ℚ), 1411)
  | some bytes =>
    if ¬ wavRiffCheck bytes then ((flatSeconds fileSize 1411 : ℚ), 1411)
    else
      match wavChunkLoop bytes fileSize (bytes.length + 1) 12 with
      | some r => r
      | none => ((flatSeconds fileSize 1411 : ℚ), 1411)

/-- extractM4AProperties (scanner.go): parsing is always skipped; a flat
256 kbps estimate is returned for every file. -/
def extractM4AProperties (_file : Option (List Nat)) (fileSize : Nat) : ℚ × Int :=
  ((flatSeconds fileSize 256 : ℚ), 256)

/-- extractAudioProperties (scanner.go): dispatch on the format tag; any
other format gets a flat 128 kbps estimate. -/
def extractAudioProperties (format : String) (file : Option (List Nat)) (fileSize : Nat) :
    ℚ × Int :=
  if format = "mp3" then extractMP3Properties file fileSize
  else if format = "flac" then extractFLACProperties file fileSize
  else if format = "m4a" then extractM4AProperties file fileSize
  else if format = "ogg" then extractOGGProperties file fileSize
  else if format = "wav" then extractWAVProperties file fileSize
  else ((flatSeconds fileSize 128 : ℚ), 128)

/-! ## Fast extractors (scanner_optimized.go); all-integer arithmetic. -/

/-- estimateDurationMP3 (scanner_optimized.go). -/
def estimateDurationMP3 (fileSize bitrate : Nat) : Nat := fileSize * 8 / bitrate / 1000

/-- The header search of findFirstMP3Bitrate: first sync pattern with a
bitrate index in 1..14 wins; otherwise keep scanning; 0 when none. -/
def findFirstMP3BitrateAux (buffer : List Nat) : Nat → Nat → Nat
  | 0, _ => 0
  | fuel+1, i =>
    if i + 3 < buffer.length then
      if byteAt buffer i == 0xFF && (byteAt buffer (i+1) &&& 0xE0) == 0xE0 then
        let bitrateIndex := (byteAt buffer (i+2) &&& 0xF0) >>> 4
        if 0 < bitrateIndex && bitrateIndex < 15 then
          [0, 32, 40, 48, 56, 64, 80, 96, 112, 128, 160, 192, 224, 256, 320].getD bitrateIndex 0
        else findFirstMP3BitrateAux buffer fuel (i+1)
      else findFirstMP3BitrateAux buffer fuel (i+1)
    else 0

/-- findFirstMP3Bitrate (scanner_optimized.go). -/
def findFirstMP3Bitrate (buffer : List Nat) : Nat :=
  findFirstMP3BitrateAux buffer buffer.length 0

/-- extractMP3PropertiesFast (scanner_optimized.go): look at the first 512
bytes only; default 192 kbps. The Go buffer is 512 zero-filled bytes and
a sync pattern can never start in the zero fill, so scanning the first
min(512, length) real bytes is equivalent. -/
def extractMP3PropertiesFast (file : Option (List Nat)) (fileSize : Nat) : Nat × Nat :=
  match file with
  | none => (estimateDurationMP3 fileSize 192, 192)
  | some bytes =>
    if bytes.length < 4 then (estimateDurationMP3 fileSize 192, 192)
    else
      let bitrate := findFirstMP3Bitrate (bytes.take 512)
      let bitrate := if bitrate == 0 then 192 else bitrate
      (estimateDurationMP3 fileSize bitrate, bitrate)

/-- extractFLACPropertiesFast (scanner_optimized.go): frame inspection is
always skipped; flat 800 kbps. -/
def extractFLACPropertiesFast (fileSize : Nat) : Nat × Nat :=
  (fileSize * 8 / 800 / 1000, 800)

/-- estimatePropertiesBySize (scanner_optimized.go): per-format flat
bitrate table, default 192. -/
def estimatePropertiesBySize (format : String) (fileSize : Nat) : Nat × Nat :=
  let avgBitrate :=
    if format = "m4a" ∨ format = "aac" then 256
    else if format = "ogg" then 192
    else if format = "wav" then 1411
    else 192
  (fileSize * 8 / avgBitrate / 1000, avgBitrate)

/-- extractAudioPropertiesFast (scanner_optimized.go). -/
def extractAudioPropertiesFast (format : String) (file : Option (List Nat)) (fileSize : Nat) :
    Nat × Nat :=
  if format = "mp3" then extractMP3PropertiesFast file fileSize
  else if format = "flac" then extractFLACPropertiesFast fileSize
  else estimatePropertiesBySize format fileSize

/-! ## Catalog store model

The relational store is modelled as in-memory lists of rows with serial
ids. SELECT by name models the SQL lookup (rows are only ever appended,
so find-first is stable); INSERT ... RETURNING id appends a row with the
next serial id. AudioFile.duration holds int(Duration.Seconds()), the
whole-second value the upsert writes. -/

structure AudioFile where
  path : String
  title : String
  artist : String
  album : String
  genre : String
  year : Int
  trackNumber : Int
  duration : Int
  size : Int
  format : String
  bitrate : Int
  coverArt : List Nat
deriving DecidableEq, Repr

structure ArtistRow where
  id : Nat
  name : String
deriving DecidableEq, Repr

structure AlbumRow where
  id : Nat
  name : String
  artistId : Nat
  year : Int
  genre : String
  coverArtPath : Option String
deriving DecidableEq, Repr

structure SongRow where
  title : String
  artistId : Nat
  albumId : Nat
  trackNumber : Int
  duration : Int
  path : String
  size : Int
  bitrate : Int
  format : String
deriving DecidableEq, Repr

structure Catalog where
  artists : List ArtistRow
  albums : List AlbumRow
  songs : List SongRow
  nextArtistId : Nat
  nextAlbumId : Nat
deriving DecidableEq, Repr

def emptyCatalog : Catalog := ⟨[], [], [], 1, 1⟩

/-- Sequential clamping of a numeric field as in insertOrUpdateSong. -/
def clampInt (lo hi x : Int) : Int := if x < lo then lo else if hi < x then hi else x

/-- The normalized artist name of getOrCreateArtistOptimized. -/
def artistNameKey (name : String) : String :=
  let n := cleanStringOptimized name
  if n = "" then "Unknown Artist" else n

/-- The normalized album name of getOrCreateAlbumOptimized. -/
def albumNameKey (name : String) : String :=
  let n := cleanStringOptimized name
  if n = "" then "Unknown Album" else n

/-- The normalized genre of getOrCreateAlbumOptimized. -/
def genreKey (genre : String) : String :=
  let n := cleanStringOptimized genre
  if n = "" then "Unknown" else n

/-- The WHERE clause of the artist lookup. -/
def artistPred (key : String) (a : ArtistRow) : Bool := a.name == key

/-- The WHERE clause of the album lookup. -/
def albumPred (key : String) (aid : Nat) (a : AlbumRow) : Bool :=
  a.name == key && a.artistId == aid

/-- The ON CONFLICT key of the song upsert. -/
def songPred (p : String) (s : SongRow) : Bool := s.path == p

/-- getOrCreateArtistOptimized (scanner_optimized.go): clean the name,
default "Unknown Artist", look up by exact name, insert when absent. -/
def getOrCreateArtistOptimized (c : Catalog) (name : String) : Nat × Catalog :=
  match c.artists.find? (artistPred (artistNameKey name)) with
  | some a => (a.id, c)
  | none =>
    (c.nextArtistId,
     { c with artists := c.artists ++ [⟨c.nextArtistId, artistNameKey name⟩],
              nextArtistId := c.nextArtistId + 1 })

/-- getOrCreateAlbumOptimized (scanner_optimized.go): clean name/genre,
default "Unknown Album"/"Unknown", look up by (name, artist id), insert
when absent (the optimized insert carries no cover-art path). -/
def getOrCreateAlbumOptimized (c : Catalog) (name : String) (artistID : Nat) (year : Int)
    (genre : String) : Nat × Catalog :=
  match c.albums.find? (albumPred (albumNameKey name) artistID) with
  | some a => (a.id, c)
  | none =>
    (c.nextAlbumId,
     { c with albums := c.albums ++
         [⟨c.nextAlbumId, albumNameKey name, artistID, year, genreKey genre, none⟩],
              nextAlbumId := c.nextAlbumId + 1 })

/-- insertOrUpdateSongOptimized (scanner_optimized.go): clamp the numeric
fields, then INSERT ... ON CONFLICT (file_path) DO UPDATE - replace the
row with that path when present, append otherwise. -/
def insertOrUpdateSongOptimized (c : Catalog) (file : AudioFile) (artistID albumID : Nat) :
    Catalog :=
  let cleanTitle := cleanStringOptimized file.title
  let cleanTitle := if cleanTitle = "" then cleanStringOptimized (filepathBase file.path)
    else cleanTitle
  let row : SongRow :=
    ⟨cleanTitle, artistID, albumID, clampInt 0 999 file.trackNumber,
     clampInt 0 86400 file.duration, file.path, file.size,
     clampInt 0 10000 file.bitrate, file.format⟩
  if c.songs.any (songPred file.path) then
    { c with songs := c.songs.map (fun s => if songPred file.path s then row else s) }
  else
    { c with songs := c.songs ++ [row] }

/-! ## processBatch (scanner_optimized.go)

Per-file step failures of the store (errors other than ErrNoRows) and
extraction failures are environmental; they are injected per file.
Begin/Commit failures are injected per batch. -/

structure BatchItem where
  extractResult : Option AudioFile
  artistDbOk : Bool
  albumDbOk : Bool
  upsertDbOk : Bool
deriving Repr

/-- A file is fully processed when extraction and all three store steps
succeed. -/
def fullyOk (it : BatchItem) : Bool :=
  it.extractResult.isSome && it.artistDbOk && it.albumDbOk && it.upsertDbOk

/-- The per-file body of the processBatch loop: each failing step logs
and skips the file (continue), leaving the transaction state as the
previous steps left it; the Bool reports whether ProcessedFiles was
incremented for this file. -/
def processFileInTx (c : Catalog) (it : BatchItem) : Catalog × Bool :=
  match it.extractResult with
  | none => (c, false)
  | some audioFile =>
    if !it.artistDbOk then (c, false)
    else
      let r1 := getOrCreateArtistOptimized c audioFile.artist
      if !it.albumDbOk then (r1.2, false)
      else
        let r2 := getOrCreateAlbumOptimized r1.2 audioFile.album r1.1 audioFile.year
          audioFile.genre
        if !it.upsertDbOk then (r2.2, false)
        else (insertOrUpdateSongOptimized r2.2 audioFile r1.1 r2.1, true)

/-- One fully successful file of a scan: the per-file body with every
environmental step succeeding (the pure store logic of the source). -/
def processFileOk (c : Catalog) (f : AudioFile) : Catalog :=
  (processFileInTx c ⟨some f, true, true, true⟩).1

/-- A full scan in which every file succeeds: fold the per-file body over
the extracted files in walk order. -/
def scanAllFiles (c : Catalog) (fs : List AudioFile) : Catalog := fs.foldl processFileOk c

/-- The row counts reported by GetScanStats: artists, albums, songs. -/
def catalogCounts (c : Catalog) : Nat × Nat × Nat :=
  (c.artists.length, c.albums.length, c.songs.length)

/-- The catalog already holds a file's rows: its normalized artist name
resolves to some artist row, the (album name, that artist id) pair
resolves to some album row, and a song row with its path exists. -/
def hasFile (c : Catalog) (f : AudioFile) : Prop :=
  ∃ row : ArtistRow,
    c.artists.find? (artistPred (artistNameKey f.artist)) = some row ∧
    (c.albums.find? (albumPred (albumNameKey f.album) row.id)).isSome = true ∧
    c.songs.any (songPred f.path) = true

structure BatchResult where
  error : Option String
  catalog : Catalog
  processedDelta : Nat
  rollbackFired : Bool
deriving Repr

/-- One iteration of the per-batch file loop: transaction state plus the
number of ProcessedFiles increments so far. -/
def batchStep (acc : Catalog × Nat) (it : BatchItem) : Catalog × Nat :=
  let p := processFileInTx acc.1 it
  (p.1, acc.2 + (if p.2 then 1 else 0))

/-- processBatch (scanner_optimized.go): begin one transaction, attempt
every file of the batch, incrementing ProcessedFiles per fully processed
file, commit once at the end. A commit failure rolls the store back (the
deferred guard fires, ProcessedFiles increments are NOT undone); after a
successful commit the guard does not fire. -/
def processBatch (c : Catalog) (batch : List BatchItem) (beginOk commitOk : Bool) :
    BatchResult :=
  if !beginOk then ⟨some "cannot begin transaction", c, 0, false⟩
  else
    let r := batch.foldl batchStep (c, 0)
    if commitOk then ⟨none, r.1, r.2, false⟩
    else ⟨some "cannot commit transaction", c, r.2, true⟩

/-! ## processBatches and the LastScanMarker (scanner_optimized.go)

The worker pool runs batches in independent transactions; the model runs
them in batch order (one linearization - the marker logic depends only on
whether some batch reported an error, not on completion order).
updateLastScanTime upserts the single scan_metadata row; its own Exec
failure is only logged, injected as markerWriteOk. -/

def chunkList {α : Type} (batchSize : Nat) : Nat → List α → List (List α)
  | 0, _ => []
  | fuel+1, l => if l.isEmpty then [] else l.take batchSize :: chunkList batchSize fuel (l.drop batchSize)

def runBatchesAux (outcomes : Nat → Bool × Bool) :
    Catalog → List (List BatchItem) → Nat → Catalog × Nat × Option String
  | c, [], _ => (c, 0, none)
  | c, b :: bs, i =>
    let r := processBatch c b (outcomes i).1 (outcomes i).2
    let rest := runBatchesAux outcomes r.catalog bs (i+1)
    (rest.1, r.processedDelta + rest.2.1, Option.orElse rest.2.2 (fun _ => r.error))

structure ProcessBatchesResult where
  catalog : Catalog
  processed : Nat
  lastError : Option String
  markerUpdateAttempted : Bool
  marker : Option Int
  isScanning : Bool
deriving Repr

/-- processBatches (scanner_optimized.go): partition into batches of
BatchSize, run them, keep the last batch error; update the
LastScanMarker to now() exactly when no batch reported an error; clear
IsScanning; surface the last batch error. -/
def processBatches (c : Catalog) (files : List BatchItem) (batchSize : Nat)
    (outcomes : Nat → Bool × Bool) (markerWriteOk : Bool) (now : Int)
    (marker0 : Option Int) : ProcessBatchesResult :=
  let batches := chunkList batchSize files.length files
  let r := runBatchesAux outcomes c batches 0
  let lastError := r.2.2
  ⟨r.1, r.2.1, lastError, lastError.isNone,
   if lastError.isNone && markerWriteOk then some now else marker0, false⟩

/-! ## Filesystem walk and the collection phase of ScanLibraryOptimized

filepath.Walk is modelled by the sequence of callback invocations: one
WalkEntry per visited path, with accessErr marking an invocation whose
err argument is non-nil (for a missing or unreadable root the callback is
invoked exactly once, with the root path and the error). Walk returns the
first non-nil error returned by the callback. -/

structure WalkEntry where
  path : String
  isDir : Bool
  modTime : Int
  size : Int
  accessErr : Bool
deriving DecidableEq, Repr

structure CollectState where
  totalFileCount : Nat
  filesToProcess : List WalkEntry
deriving DecidableEq, Repr

/-- The incremental-mode skip test: scanning is incremental, the marker
is set (non-zero), and the file's modification time precedes it. -/
def cutoffSkip (incrementalMode : Bool) (lastScanTime : Option Int) (e : WalkEntry) : Bool :=
  incrementalMode && (match lastScanTime with
    | some t => decide (e.modTime < t)
    | none => false)

/-- The walk callback of ScanLibraryOptimized: errors are logged and
swallowed (return nil), directories skipped; audio files are counted and,
unless the incremental cutoff excludes them, appended to the work list. -/
def collectStep (incrementalMode : Bool) (lastScanTime : Option Int) (st : CollectState)
    (e : WalkEntry) : CollectState × Option String :=
  if e.accessErr then (st, none)
  else if e.isDir then (st, none)
  else if isAudioFile e.path then
    let st1 : CollectState := { st with totalFileCount := st.totalFileCount + 1 }
    if cutoffSkip incrementalMode lastScanTime e then (st1, none)
    else ({ st1 with filesToProcess := st1.filesToProcess ++ [e] }, none)
  else (st, none)

/-- filepath.Walk over the invocation sequence, stopping at the first
callback error. -/
def walkCollect (incrementalMode : Bool) (lastScanTime : Option Int) :
    CollectState → List WalkEntry → CollectState × Option String
  | st, [] => (st, none)
  | st, e :: es =>
    let r := collectStep incrementalMode lastScanTime st e
    match r.2 with
    | some err => (r.1, some err)
    | none => walkCollect incrementalMode lastScanTime r.1 es

inductive ScanDispatch where
  | fatal : String → ScanDispatch
  | emptyCompleted : ScanDispatch
  | dispatch : List WalkEntry → ScanDispatch
deriving DecidableEq, Repr

structure ScanOptCollectResult where
  totalFiles : Nat
  mode : OptimizationMode
  isScanning : Bool
  lastError : String
  outcome : ScanDispatch
  returnedError : Option String
deriving DecidableEq, Repr

/-- ScanLibraryOptimized up to batch dispatch: collect the work list,
expose TotalFiles as the work-list length, select the optimization mode
from the full candidate count, and either return nil with no batches
(empty work list), or hand the work list to processBatches. The fatal
branch mirrors the source's handling of a non-nil Walk error. -/
def scanLibraryOptimizedCollect (incrementalMode : Bool) (lastScanTime : Option Int)
    (entries : List WalkEntry) : ScanOptCollectResult :=
  let w := walkCollect incrementalMode lastScanTime ⟨0, []⟩ entries
  match w.2 with
  | some err =>
    ⟨0, ⟨100, 4, false⟩, false, "error collecting files: " ++ err, ScanDispatch.fatal err,
     some ("error collecting files: " ++ err)⟩
  | none =>
    let st := w.1
    let mode := setOptimizationMode st.totalFileCount
    if st.filesToProcess.isEmpty then
      ⟨st.filesToProcess.length, mode, false, "", ScanDispatch.emptyCompleted, none⟩
    else
      ⟨st.filesToProcess.length, mode, true, "", ScanDispatch.dispatch st.filesToProcess, none⟩

/-- GetScanProgress: lock-guarded snapshot of the scan state. -/
structure ScanProgress where
  isScanning : Bool
  totalFiles : Nat
  processedFiles : Nat
  percentComplete : ℚ
  lastError : Option String
deriving DecidableEq, Repr

def getScanProgress (isScanning : Bool) (totalFiles processedFiles : Nat)
    (lastError : String) : ScanProgress :=
  ⟨isScanning, totalFiles, processedFiles,
   if 0 < totalFiles then (processedFiles : ℚ) / (totalFiles : ℚ) * 100 else 0,
   if lastError ≠ "" then some lastError else none⟩

/-! ## The plain scanner (scanner.go, ScanLibrary)

Per-file processing runs in its own transaction (addToDatabase); step
failures of the store and unreadable files are injected per path. The
scan additionally produces a trace of effects: DELETE statements of
clearExistingData and per-candidate processing attempts. -/

def getOrCreateArtist (c : Catalog) (name : String) : Nat × Catalog :=
  let cleanName := trimSpace name
  let cleanName := if cleanName = "" then "Unknown Artist" else cleanName
  let cleanName := if cleanName.length > 255 then String.mk (cleanName.toList.take 255)
    else cleanName
  match c.artists.find? (fun a => a.name == cleanName) with
  | some a => (a.id, c)
  | none =>
    (c.nextArtistId,
     { c with artists := c.artists ++ [⟨c.nextArtistId, cleanName⟩],
              nextArtistId := c.nextArtistId + 1 })

/-- Filesystem-unsafe characters replaced by saveCoverArt. -/
def sanitizeCoverName (s : String) : String :=
  String.mk (s.toList.map (fun r =>
    if r == '/' || r == '\\' || r == ':' || r == '*' || r == '?' || r == '\"' ||
       r == '<' || r == '>' || r == '|' then '_' else r))

/-- saveCoverArt (scanner.go): the cover path written for an album; the
filesystem write is assumed to succeed (failures only log and return "",
not exercised by the claims). -/
def saveCoverArt (albumName : String) (artistID : Nat) : String :=
  "covers/" ++ sanitizeCoverName albumName ++ "_" ++ toString artistID ++ ".jpg"

def getOrCreateAlbum (c : Catalog) (name : String) (artistID : Nat) (year : Int)
    (genre : String) (coverArt : List Nat) : Nat × Catalog :=
  let cleanName := trimSpace name
  let cleanName := if cleanName = "" then "Unknown Album" else cleanName
  let cleanName := if cleanName.length > 255 then String.mk (cleanName.toList.take 255)
    else cleanName
  let cleanGenre := trimSpace genre
  let cleanGenre := if cleanGenre = "" then "Unknown" else cleanGenre
  let cleanGenre := if cleanGenre.length > 100 then String.mk (cleanGenre.toList.take 100)
    else cleanGenre
  match c.albums.find? (fun a => a.name == cleanName && a.artistId == artistID) with
  | some a =>
    if coverArt.length > 0 && a.coverArtPath.isNone then
      (a.id, { c with albums := c.albums.map (fun b =>
        if b.id == a.id then { b with coverArtPath := some (saveCoverArt cleanName artistID) }
        else b) })
    else (a.id, c)
  | none =>
    let coverArtPath := if coverArt.length > 0 then saveCoverArt cleanName artistID else ""
    (c.nextAlbumId,
     { c with albums := c.albums ++
         [⟨c.nextAlbumId, cleanName, artistID, year, cleanGenre, some coverArtPath⟩],
              nextAlbumId := c.nextAlbumId + 1 })

def insertOrUpdateSong (c : Catalog) (file : AudioFile) (artistID albumID : Nat) : Catalog :=
  let cleanTitle := trimSpace file.title
  let cleanTitle := if cleanTitle = "" then filepathBase file.path else cleanTitle
  let cleanTitle := if cleanTitle.length > 255 then String.mk (cleanTitle.toList.take 255)
    else cleanTitle
  let row : SongRow :=
    ⟨cleanTitle, artistID, albumID, clampInt 0 999 file.trackNumber,
     clampInt 0 86400 file.duration, file.path, file.size,
     clampInt 0 10000 file.bitrate, file.format⟩
  if c.songs.any (fun s => s.path == file.path) then
    { c with songs := c.songs.map (fun s => if s.path == file.path then row else s) }
  else
    { c with songs := c.songs ++ [row] }

structure PlainItem where
  extractOk : Bool
  audio : AudioFile
  beginOk : Bool
  artistDbOk : Bool
  albumDbOk : Bool
  upsertDbOk : Bool
  commitOk : Bool
deriving Repr

/-- addToDatabase (scanner.go): one transaction per file; any step or
commit failure returns an error and the deferred guard rolls the whole
file's transaction back; the Bool reports success. -/
def addToDatabase (c : Catalog) (it : PlainItem) : Catalog × Bool :=
  if !it.beginOk then (c, false)
  else if !it.artistDbOk then (c, false)
  else
    let r1 := getOrCreateArtist c it.audio.artist
    if !it.albumDbOk then (c, false)
    else
      let r2 := getOrCreateAlbum r1.2 it.audio.album r1.1 it.audio.year it.audio.genre
        it.audio.coverArt
      if !it.upsertDbOk then (c, false)
      else
        let c2 := insertOrUpdateSong r2.2 it.audio r1.1 r2.1
        if !it.commitOk then (c, false)
        else (c2, true)

/-- processAudioFile (scanner.go): an unreadable file errors before any
store access; tag-read failures fall back to basic metadata and the
extractors never fail, so the injected audio value covers them. -/
def processAudioFile (c : Catalog) (it : PlainItem) : Catalog × Bool :=
  if !it.extractOk then (c, false) else addToDatabase c it

structure PlainDB where
  favorites : Nat
  ratings : Nat
  playHistory : Nat
  playlistSongs : Nat
  playlists : Nat
  catalog : Catalog
deriving DecidableEq, Repr

inductive ScanEffect where
  | deleteTable : String → ScanEffect
  | attemptFile : String → ScanEffect
deriving DecidableEq, Repr

def isDeleteEffect : ScanEffect → Bool
  | ScanEffect.deleteTable _ => true
  | ScanEffect.attemptFile _ => false

/-- The DELETE statements of clearExistingData, in source order. -/
def clearTableNames : List String :=
  ["favorites", "ratings", "play_history", "playlist_songs", "playlists",
   "songs", "albums", "artists"]

/-- Effect of the i-th DELETE on the store. -/
def applyDelete (db : PlainDB) (i : Nat) : PlainDB :=
  match i with
  | 0 => { db with favorites := 0 }
  | 1 => { db with ratings := 0 }
  | 2 => { db with playHistory := 0 }
  | 3 => { db with playlistSongs := 0 }
  | 4 => { db with playlists := 0 }
  | 5 => { db with catalog := { db.catalog with songs := [] } }
  | 6 => { db with catalog := { db.catalog with albums := [] } }
  | 7 => { db with catalog := { db.catalog with artists := [] } }
  | _ => db

/-- clearExistingData (scanner.go): execute the DELETEs in order; the
first failing Exec (injected by index) aborts the remaining ones and
returns an error. The trace records every attempted DELETE. -/
def clearLoop (failAt : Option Nat) :
    PlainDB → Nat → List String → PlainDB × Option String × List ScanEffect
  | db, _, [] => (db, none, [])
  | db, i, q :: qs =>
    if failAt = some i then (db, some ("error executing DELETE FROM " ++ q),
      [ScanEffect.deleteTable q])
    else
      let r := clearLoop failAt (applyDelete db i) (i+1) qs
      (r.1, r.2.1, ScanEffect.deleteTable q :: r.2.2)

def clearExistingData (db : PlainDB) (failAt : Option Nat) :
    PlainDB × Option String × List ScanEffect :=
  clearLoop failAt db 0 clearTableNames

structure PlainScanState where
  totalFiles : Nat
  processedFiles : Nat
  isScanning : Bool
  lastError : String
deriving DecidableEq, Repr

/-- The counting pass of ScanLibrary: walk errors and directories are
skipped, audio files counted; the callback never returns an error. -/
def countPass (entries : List WalkEntry) : Nat :=
  entries.countP (fun e => !e.accessErr && !e.isDir && isAudioFile e.path)

/-- The processing pass of ScanLibrary: for every candidate, attempt
processAudioFile (failures only logged) and increment ProcessedFiles
unconditionally. -/
def processPass (items : String → PlainItem) :
    Catalog → Nat → List WalkEntry → Catalog × Nat × List ScanEffect
  | c, processed, [] => (c, processed, [])
  | c, processed, e :: es =>
    if !e.accessErr && !e.isDir && isAudioFile e.path then
      let r := processAudioFile c (items e.path)
      let rest := processPass items r.1 (processed + 1) es
      (rest.1, rest.2.1, ScanEffect.attemptFile e.path :: rest.2.2)
    else processPass items c processed es

structure ScanLibraryResult where
  db : PlainDB
  state : PlainScanState
  effects : List ScanEffect
  returnedError : Option String
deriving Repr

/-- ScanLibrary (scanner.go): reset progress, count candidates, clear the
existing catalog (failure only logged), then process every candidate,
counting each attempt. Both walks swallow per-path errors, so the
function returns nil and LastError stays empty. -/
def scanLibrary (db : PlainDB) (entries : List WalkEntry) (clearFailAt : Option Nat)
    (items : String → PlainItem) : ScanLibraryResult :=
  let total := countPass entries
  let cl := clearExistingData db clearFailAt
  let pr := processPass items cl.1.catalog 0 entries
  { db := { cl.1 with catalog := pr.1 },
    state := ⟨total, pr.2.1, false, ""⟩,
    effects := cl.2.2 ++ pr.2.2,
    returnedError := none }

/-! ## Concrete demonstration data used by counterexamples and witnesses -/

def demoAudio (i : Nat) : AudioFile :=
  ⟨"/music/track" ++ toString i ++ ".mp3", "Track " ++ toString i, "Artist", "Album",
   "Rock", 2001, (i : Int), 200, 1000000, "mp3", 128, []⟩

/-- Ten extractable files with every store step healthy except the track
upsert of file number 5 (index 4). -/
def demoBatch10 : List BatchItem :=
  (List.range 10).map (fun i => ⟨some (demoAudio i), true, true, i != 4⟩)

/-- A candidate whose processAudioFile fails at os.Open. -/
def unreadableItem : PlainItem := ⟨false, demoAudio 0, true, true, true, true, true⟩

def demoTrack1 : AudioFile :=
  ⟨"/music/The Artist/The Album/01.mp3", "One", "The Artist", "The Album", "Rock",
   2001, 1, 201, 4000000, "mp3", 160, []⟩

def demoTrack2 : AudioFile :=
  ⟨"/music/The Artist/The Album/02.mp3", "Two", "The Artist", "The Album", "Rock",
   2001, 2, 190, 3800000, "mp3", 160, []⟩

/-- A library of one artist, one album, two tracks. -/
def demoLibrary : List AudioFile := [demoTrack1, demoTrack2]

/-- An audio candidate last modified at time 50. -/
def oldFileEntry : WalkEntry := ⟨"/music/old.mp3", false, 50, 1000, false⟩

/-- An audio candidate last modified at time 200. -/
def newFileEntry : WalkEntry := ⟨"/music/new.mp3", false, 200, 1000, false⟩

/-! ## Theorems: C7, C8 -/

/-- C7: the Optimization Selector is a pure function of the candidate
count: above 100000 files it selects batch 500 / 8 workers / skip cover
art; above 10000 (and at most 100000) it selects 200 / 6 / keep cover
art; otherwise 50 / 2 / keep cover art; in particular 150000 candidates
give 500/8/true and 5000 give 50/2/false. -/
theorem C7_optimization_selector :
    (∀ n : Nat, 100000 < n → setOptimizationMode n = ⟨500, 8, true⟩) ∧
    (∀ n : Nat, 10000 < n → n ≤ 100000 → setOptimizationMode n = ⟨200, 6, false⟩) ∧
    (∀ n : Nat, n ≤ 10000 → setOptimizationMode n = ⟨50, 2, false⟩) ∧
    setOptimizationMode 150000 = ⟨500, 8, true⟩ ∧
    setOptimizationMode 5000 = ⟨50, 2, false⟩ := by
  refine ⟨?_, ?_, ?_, by decide, by decide⟩
  · intro n h
    simp only [setOptimizationMode, if_pos (by omega : n > 100000)]
  · intro n h1 h2
    simp only [setOptimizationMode, if_neg (by omega : ¬ n > 100000),
      if_pos (by omega : n > 10000)]
  · intro n h
    simp only [setOptimizationMode, if_neg (by omega : ¬ n > 100000),
      if_neg (by omega : ¬ n > 10000)]

/-- Witness for C7 at concrete candidate counts. -/
theorem C7_optimization_selector_witness :
    setOptimizationMode 150000 = ⟨500, 8, true⟩ ∧
    setOptimizationMode 50000 = ⟨200, 6, false⟩ ∧
    setOptimizationMode 5000 = ⟨50, 2, false⟩ :=
  ⟨C7_optimization_selector.1 150000 (by decide),
   C7_optimization_selector.2.1 50000 (by decide) (by decide),
   C7_optimization_selector.2.2.1 5000 (by decide)⟩

/-- C8: the MP3 lookup tables map (MPEG-1, Layer III, index 9) to 128
kbps and index 14 to 320 kbps; (MPEG-2, index 12) to 128 kbps; index 0
or 15 to 0 (invalid) for every version and layer; and the sample-rate
table maps (3,0) to 44100, (2,0) to 22050 and (0,0) to 11025. -/
theorem C8_mp3_lookup_tables :
    getMP3Bitrate 3 1 9 = 128 ∧ getMP3Bitrate 3 1 14 = 320 ∧
    getMP3Bitrate 2 1 12 = 128 ∧
    (∀ v l : Nat, getMP3Bitrate v l 0 = 0 ∧ getMP3Bitrate v l 15 = 0) ∧
    getMP3SampleRate 3 0 = 44100 ∧ getMP3SampleRate 2 0 = 22050 ∧
    getMP3SampleRate 0 0 = 11025 := by
  refine ⟨by decide, by decide, by decide, ?_, by decide, by decide, by decide⟩
  intro v l
  constructor
  · cases h : v == 3 <;>
      simp [getMP3Bitrate, h, bitrateTableV1L3, bitrateTableV2L3]
  · simp [getMP3Bitrate]

/-- C9 (amended): whenever a container parser fails (unreadable file) or
is skipped, the extractor returns the flat estimate
duration = fileSize*8/(bitrate*1000) seconds (integer division) with the
format's flat bitrate: on the full path mp3 128, FLAC 1000, ogg 192,
wav 1411, m4a 256, and 128 (not 192) for any other format; in the
optimized estimator m4a/aac 256, ogg 192, wav 1411, default 192, FLAC
always a flat 800, and mp3 192 when the file cannot be read. -/
theorem C9_flat_fallback_estimates :
    (∀ size : Nat, extractMP3Properties none size = ((flatSeconds size 128 : ℚ), 128)) ∧
    (∀ size : Nat, extractFLACProperties none size = ((flatSeconds size 1000 : ℚ), 1000)) ∧
    (∀ size : Nat, extractOGGProperties none size = ((flatSeconds size 192 : ℚ), 192)) ∧
    (∀ size : Nat, extractWAVProperties none size = ((flatSeconds size 1411 : ℚ), 1411)) ∧
    (∀ size : Nat, ∀ file, extractM4AProperties file size = ((flatSeconds size 256 : ℚ), 256)) ∧
    (∀ size : Nat, ∀ fmt : String, fmt ≠ "mp3" → fmt ≠ "flac" → fmt ≠ "m4a" → fmt ≠ "ogg" →
      fmt ≠ "wav" → ∀ file,
      extractAudioProperties fmt file size = ((flatSeconds size 128 : ℚ), 128)) ∧
    (∀ size : Nat,
      estimatePropertiesBySize "m4a" size = (flatSeconds size 256, 256) ∧
      estimatePropertiesBySize "aac" size = (flatSeconds size 256, 256) ∧
      estimatePropertiesBySize "ogg" size = (flatSeconds size 192, 192) ∧
      estimatePropertiesBySize "wav" size = (flatSeconds size 1411, 1411)) ∧
    (∀ size : Nat, ∀ fmt : String, fmt ≠ "m4a" → fmt ≠ "aac" → fmt ≠ "ogg" → fmt ≠ "wav" →
      estimatePropertiesBySize fmt size = (flatSeconds size 192, 192)) ∧
    (∀ size : Nat, extractFLACPropertiesFast size = (flatSeconds size 800, 800)) ∧
    (∀ size : Nat, extractMP3PropertiesFast none size = (flatSeconds size 192, 192)) := by
  refine ⟨fun size => rfl, fun size => rfl, fun size => rfl, fun size => rfl,
    fun size file => rfl, ?_, ?_, ?_, ?_, ?_⟩
  · intro size fmt h1 h2 h3 h4 h5 file
    simp only [extractAudioProperties, if_neg h1, if_neg h2, if_neg h3, if_neg h4, if_neg h5]
  · intro size
    refine ⟨?_, ?_, ?_, ?_⟩ <;>
      simp [estimatePropertiesBySize, flatSeconds, Nat.div_div_eq_div_mul]
  · intro size fmt h1 h2 h3 h4
    simp only [estimatePropertiesBySize, flatSeconds]
    rw [if_neg (by simp [h1, h2]), if_neg h3, if_neg h4, Nat.div_div_eq_div_mul]
  · intro size
    simp [extractFLACPropertiesFast, flatSeconds, Nat.div_div_eq_div_mul]
  · intro size
    simp [extractMP3PropertiesFast, estimateDurationMP3, flatSeconds, Nat.div_div_eq_div_mul]

/-- Witness for C9 at concrete inputs: an unreadable 5 MB file of an
unknown format tag on both paths. -/
theorem C9_flat_fallback_estimates_witness :
    extractAudioProperties "opus" none 5000000 = ((flatSeconds 5000000 128 : ℚ), 128) ∧
    estimatePropertiesBySize "opus" 5000000 = (flatSeconds 5000000 192, 192) ∧
    extractMP3Properties none 5000000 = ((flatSeconds 5000000 128 : ℚ), 128) :=
  ⟨C9_flat_fallback_estimates.2.2.2.2.2.1 5000000 "opus" (by decide) (by decide) (by decide)
      (by decide) (by decide) none,
   C9_flat_fallback_estimates.2.2.2.2.2.2.2.1 5000000 "opus" (by decide) (by decide)
      (by decide) (by decide),
   C9_flat_fallback_estimates.1 5000000⟩

/-- Counterexample for C9 as stated: on the full path a file whose format
tag is "aac" (container parser skipped) gets the flat 128 kbps estimate,
not the claimed 256 (m4a/aac) nor the claimed default 192: for a 192000
byte file the code computes bitrate 128 and duration 12 s, where the
claim predicts 256 kbps / 6 s (or 192 kbps / 8 s). -/
theorem C9_default_bitrate_counterexample :
    (extractAudioProperties "aac" none 192000).2 = 128 ∧
    (extractAudioProperties "aac" none 192000).2 ≠ 256 ∧
    (extractAudioProperties "aac" none 192000).2 ≠ 192 ∧
    flatSeconds 192000 128 = 12 ∧ flatSeconds 192000 256 = 6 ∧ flatSeconds 192000 192 = 8 := by
  have h : (extractAudioProperties "aac" none 192000).2 = 128 := rfl
  exact ⟨h, by rw [h]; decide, by rw [h]; decide, by decide, by decide, by decide⟩

/-! ## Lemmas about the batch loop -/

theorem processFileInTx_snd (c : Catalog) (it : BatchItem) :
    (processFileInTx c it).2 = fullyOk it := by
  rcases it with ⟨ext, aOk, alOk, uOk⟩
  cases ext <;> cases aOk <;> cases alOk <;> cases uOk <;>
    simp [processFileInTx, fullyOk]

theorem batchFold_processed (items : List BatchItem) :
    ∀ (c : Catalog) (n : Nat),
      (items.foldl batchStep (c, n)).2 = n + items.countP fullyOk := by
  induction items with
  | nil => intro c n; simp
  | cons it its ih =>
    intro c n
    simp only [List.foldl_cons, List.countP_cons, batchStep]
    rw [ih, processFileInTx_snd]
    cases h : fullyOk it <;> (simp [h]; try omega)

theorem processBatch_begin_delta (c : Catalog) (items : List BatchItem) (commitOk : Bool) :
    (processBatch c items true commitOk).processedDelta = items.countP fullyOk := by
  cases commitOk <;>
    simp [processBatch, batchFold_processed]

/-! ## Lemmas about the plain processing pass -/

theorem processPass_processed (items : String → PlainItem) :
    ∀ (entries : List WalkEntry) (c : Catalog) (n : Nat),
      (processPass items c n entries).2.1 = n + countPass entries := by
  intro entries
  induction entries with
  | nil => intro c n; simp [processPass, countPass]
  | cons e es ih =>
    intro c n
    simp only [processPass, countPass, List.countP_cons]
    cases h : (!e.accessErr && !e.isDir && isAudioFile e.path) <;>
      simp only [h, if_true, if_false, Bool.false_eq_true, ite_false, ite_true]
    · rw [show (processPass items c n es).2.1 = n + countPass es from ih c n]
      simp [countPass]
    · rw [show (processPass items (processAudioFile c (items e.path)).1 (n+1) es).2.1 =
        (n+1) + countPass es from ih _ (n+1)]
      simp [countPass]
      omega

/-- C1 (amended): in the optimized scanner a batch's contribution to
processedCount is exactly the number of files whose extraction, artist,
album and track-upsert steps all succeeded - counted before the commit,
so the count is the same whether the batch commit later succeeds or
fails; a failed Begin contributes 0. In the plain scanner,
processedCount counts every attempted candidate, successful or not. -/
theorem C1_processed_count_amended :
    (∀ (c : Catalog) (items : List BatchItem) (commitOk : Bool),
      (processBatch c items true commitOk).processedDelta = items.countP fullyOk) ∧
    (∀ (c : Catalog) (items : List BatchItem) (commitOk : Bool),
      (processBatch c items false commitOk).processedDelta = 0) ∧
    (∀ (db : PlainDB) (entries : List WalkEntry) (clearFailAt : Option Nat)
       (items : String → PlainItem),
      (scanLibrary db entries clearFailAt items).state.processedFiles = countPass entries) := by
  refine ⟨fun c items commitOk => processBatch_begin_delta c items commitOk,
    fun c items commitOk => by cases commitOk <;> rfl,
    fun db entries clearFailAt items => ?_⟩
  show (processPass items (clearExistingData db clearFailAt).1.catalog 0 entries).2.1 =
    countPass entries
  rw [processPass_processed]
  omega

/-- Counterexample for C1 as stated: a scan over a single unreadable
candidate (processAudioFile fails, nothing is committed) still reports
processedCount = 1; the claim demands such a file never be counted. -/
theorem C1_skipped_file_counted_counterexample :
    (scanLibrary ⟨3, 3, 3, 3, 3, emptyCatalog⟩ [⟨"/music/bad.mp3", false, 0, 1000, false⟩]
        none (fun _ => unreadableItem)).state.processedFiles = 1 ∧
    (scanLibrary ⟨3, 3, 3, 3, 3, emptyCatalog⟩ [⟨"/music/bad.mp3", false, 0, 1000, false⟩]
        none (fun _ => unreadableItem)).db.catalog.songs.length = 0 ∧
    (processBatch emptyCatalog [⟨some (demoAudio 0), true, true, true⟩] true false).error.isSome =
      true ∧
    (processBatch emptyCatalog [⟨some (demoAudio 0), true, true, true⟩] true false).processedDelta
      = 1 := by
  refine ⟨by decide, by decide, by decide, by decide⟩

/-- C4: within one batch a per-file failure skips only that file: with
Begin and Commit healthy the batch reports no error, the rollback guard
does not fire and processedCount counts exactly the fully successful
files; only a Commit failure makes the batch report an error, fire the
rollback guard and discard the batch's rows; and concretely a batch of
10 files whose file number 5 fails its track upsert still commits the
other 9 tracks with a successful commit and no rollback. -/
theorem C4_per_file_failure_skips_only_that_file :
    (∀ (c : Catalog) (items : List BatchItem),
      (processBatch c items true true).error = none ∧
      (processBatch c items true true).rollbackFired = false ∧
      (processBatch c items true true).processedDelta = items.countP fullyOk) ∧
    (∀ (c : Catalog) (items : List BatchItem),
      (processBatch c items true false).error = some "cannot commit transaction" ∧
      (processBatch c items true false).rollbackFired = true ∧
      (processBatch c items true false).catalog = c) ∧
    demoBatch10.length = 10 ∧
    fullyOk (demoBatch10.getD 4 ⟨none, false, false, false⟩) = false ∧
    (processBatch emptyCatalog demoBatch10 true true).error = none ∧
    (processBatch emptyCatalog demoBatch10 true true).rollbackFired = false ∧
    (processBatch emptyCatalog demoBatch10 true true).catalog.songs.length = 9 ∧
    (processBatch emptyCatalog demoBatch10 true true).processedDelta = 9 := by
  refine ⟨fun c items => ⟨rfl, rfl, processBatch_begin_delta c items true⟩,
    fun c items => ⟨rfl, rfl, rfl⟩,
    by decide, by decide, by decide, by decide, by decide, by decide⟩

/-! ## Lemmas about processBatches and the marker -/

theorem orElse_none_iff (x : Option String) (f : Unit → Option String) :
    Option.orElse x f = none ↔ (x = none ∧ f () = none) := by
  cases x <;> simp [Option.orElse]

theorem processBatch_error_none (c : Catalog) (b : List BatchItem) (bo co : Bool) :
    (processBatch c b bo co).error = none ↔ (bo = true ∧ co = true) := by
  cases bo <;> cases co <;> simp [processBatch]

theorem runBatchesAux_lastError_none (o : Nat → Bool × Bool) :
    ∀ (bs : List (List BatchItem)) (c : Catalog) (i : Nat),
      (runBatchesAux o c bs i).2.2 = none ↔
        ∀ j, j < bs.length → (o (i + j)).1 = true ∧ (o (i + j)).2 = true := by
  intro bs
  induction bs with
  | nil => intro c i; simp [runBatchesAux]
  | cons b bs ih =>
    intro c i
    simp only [runBatchesAux, List.length_cons]
    rw [orElse_none_iff, ih, processBatch_error_none]
    constructor
    · rintro ⟨hrest, hthis⟩ j hj
      cases j with
      | zero => simpa using hthis
      | succ j' =>
        have h := hrest j' (by omega)
        have heq : i + 1 + j' = i + (j' + 1) := by omega
        rw [heq] at h
        exact h
    · intro h
      refine ⟨fun j hj => ?_, ?_⟩
      · have heq : i + 1 + j = i + (j + 1) := by omega
        rw [heq]
        exact h (j + 1) (by omega)
      · simpa using h 0 (by omega)

/-- C5: when all workers have finished, the LastScanMarker write is
attempted exactly when no batch reported an error; any batch failure
leaves the marker unchanged; with no failure the marker becomes now()
when the marker store accepts the write, and is left unchanged when that
write itself fails (which is only logged). -/
theorem C5_last_scan_marker :
    ∀ (c : Catalog) (files : List BatchItem) (batchSize : Nat) (outcomes : Nat → Bool × Bool)
      (markerWriteOk : Bool) (now : Int) (marker0 : Option Int),
      ((processBatches c files batchSize outcomes markerWriteOk now
          marker0).markerUpdateAttempted = true ↔
        ∀ j, j < (chunkList batchSize files.length files).length →
          (outcomes j).1 = true ∧ (outcomes j).2 = true) ∧
      ((processBatches c files batchSize outcomes markerWriteOk now
          marker0).markerUpdateAttempted = false →
        (processBatches c files batchSize outcomes markerWriteOk now marker0).marker =
          marker0) ∧
      ((processBatches c files batchSize outcomes markerWriteOk now
          marker0).markerUpdateAttempted = true → markerWriteOk = true →
        (processBatches c files batchSize outcomes markerWriteOk now marker0).marker =
          some now) ∧
      ((processBatches c files batchSize outcomes markerWriteOk now
          marker0).markerUpdateAttempted = true → markerWriteOk = false →
        (processBatches c files batchSize outcomes markerWriteOk now marker0).marker =
          marker0) := by
  intro c files batchSize outcomes markerWriteOk now marker0
  have hiff := runBatchesAux_lastError_none outcomes
    (chunkList batchSize files.length files) c 0
  simp only [Nat.zero_add] at hiff
  constructor
  · simp only [processBatches, Option.isNone_iff_eq_none]
    exact hiff
  · refine ⟨?_, ?_, ?_⟩ <;>
      simp only [processBatches] <;>
      cases h : (runBatchesAux outcomes c (chunkList batchSize files.length files) 0).2.2 <;>
      cases markerWriteOk <;>
      simp [Option.isNone]

/-- Witness for C5: a one-file, one-batch scan. With a healthy commit
the marker becomes now() = 777; with a failing commit it stays some 5. -/
theorem C5_last_scan_marker_witness :
    (processBatches emptyCatalog [⟨some (demoAudio 0), true, true, true⟩] 1
       (fun _ => (true, true)) true 777 none).marker = some 777 ∧
    (processBatches emptyCatalog [⟨some (demoAudio 0), true, true, true⟩] 1
       (fun _ => (true, false)) true 777 (some 5)).marker = some 5 := by
  constructor
  · exact (C5_last_scan_marker emptyCatalog [⟨some (demoAudio 0), true, true, true⟩] 1
      (fun _ => (true, true)) true 777 none).2.2.1
      ((C5_last_scan_marker emptyCatalog [⟨some (demoAudio 0), true, true, true⟩] 1
        (fun _ => (true, true)) true 777 none).1.mpr (fun j hj => ⟨rfl, rfl⟩)) rfl
  · exact (C5_last_scan_marker emptyCatalog [⟨some (demoAudio 0), true, true, true⟩] 1
      (fun _ => (true, false)) true 777 (some 5)).2.1 (by decide)

/-! ## Lemmas about the collection walk -/

theorem collectStep_no_error (inc : Bool) (lst : Option Int) (st : CollectState)
    (e : WalkEntry) : (collectStep inc lst st e).2 = none := by
  cases hae : e.accessErr <;> cases hid : e.isDir <;> cases haf : isAudioFile e.path <;>
    cases hs : cutoffSkip inc lst e <;> simp [collectStep, hae, hid, haf, hs]

theorem walkCollect_cons (inc : Bool) (lst : Option Int) (st : CollectState)
    (e : WalkEntry) (es : List WalkEntry) :
    walkCollect inc lst st (e :: es) = walkCollect inc lst (collectStep inc lst st e).1 es := by
  simp only [walkCollect, collectStep_no_error]

theorem walkCollect_no_error (inc : Bool) (lst : Option Int) :
    ∀ (entries : List WalkEntry) (st : CollectState),
      (walkCollect inc lst st entries).2 = none := by
  intro entries
  induction entries with
  | nil => intro st; rfl
  | cons e es ih =>
    intro st
    rw [walkCollect_cons]
    exact ih _

theorem collectStep_total (inc : Bool) (lst : Option Int) (st : CollectState)
    (e : WalkEntry) :
    (collectStep inc lst st e).1.totalFileCount =
      st.totalFileCount +
        (if (!e.accessErr && !e.isDir && isAudioFile e.path) then 1 else 0) := by
  cases hae : e.accessErr <;> cases hid : e.isDir <;> cases haf : isAudioFile e.path <;>
    cases hs : cutoffSkip inc lst e <;> simp [collectStep, hae, hid, haf, hs]

theorem collectStep_mem (inc : Bool) (lst : Option Int) (st : CollectState)
    (e x : WalkEntry) (hx : x ∈ (collectStep inc lst st e).1.filesToProcess) :
    x ∈ st.filesToProcess ∨ (x = e ∧ cutoffSkip inc lst e = false) := by
  cases hae : e.accessErr <;> cases hid : e.isDir <;> cases haf : isAudioFile e.path <;>
    cases hs : cutoffSkip inc lst e <;>
    simp [collectStep, hae, hid, haf, hs] at hx <;> tauto

theorem walkCollect_total (inc : Bool) (lst : Option Int) :
    ∀ (entries : List WalkEntry) (st : CollectState),
      (walkCollect inc lst st entries).1.totalFileCount =
        st.totalFileCount +
          entries.countP (fun e => !e.accessErr && !e.isDir && isAudioFile e.path) := by
  intro entries
  induction entries with
  | nil => intro st; simp [walkCollect]
  | cons e es ih =>
    intro st
    rw [walkCollect_cons, ih, collectStep_total, List.countP_cons]
    cases hcond : (!e.accessErr && !e.isDir && isAudioFile e.path) <;>
      simp [hcond] <;> omega

theorem walkCollect_cutoff (T : Int) :
    ∀ (entries : List WalkEntry) (st : CollectState) (x : WalkEntry),
      x ∈ (walkCollect true (some T) st entries).1.filesToProcess →
      x ∈ st.filesToProcess ∨ T ≤ x.modTime := by
  intro entries
  induction entries with
  | nil => intro st x hx; exact Or.inl hx
  | cons e es ih =>
    intro st x hx
    rw [walkCollect_cons] at hx
    rcases ih _ x hx with hmem | hle
    · rcases collectStep_mem true (some T) st e x hmem with h1 | ⟨hxe, hs⟩
      · exact Or.inl h1
      · have hnot : ¬ (e.modTime < T) := by
          simpa [cutoffSkip] using hs
        right
        rw [hxe]
        omega
    · exact Or.inr hle

theorem scanOptCollect_totalFiles (inc : Bool) (lst : Option Int)
    (entries : List WalkEntry) :
    (scanLibraryOptimizedCollect inc lst entries).totalFiles =
      (walkCollect inc lst ⟨0, []⟩ entries).1.filesToProcess.length := by
  have h := walkCollect_no_error inc lst entries ⟨0, []⟩
  simp only [scanLibraryOptimizedCollect, h]
  split <;> rfl

/-- C2 (amended): in incremental mode with LastScanMarker = T, a
candidate whose modification time precedes T is excluded from the work
list AND from the TotalFiles value the Progress Tracker exposes (the
source sets TotalFiles to the work-list length); the skipped candidate
is still counted in the internal candidate total that only feeds the
Optimization Selector. -/
theorem C2_incremental_cutoff_amended :
    ∀ (T : Int) (entries : List WalkEntry) (e : WalkEntry),
      e ∈ entries → e.accessErr = false → e.isDir = false → isAudioFile e.path = true →
      e.modTime < T →
      e ∉ (walkCollect true (some T) ⟨0, []⟩ entries).1.filesToProcess ∧
      (walkCollect true (some T) ⟨0, []⟩ entries).1.totalFileCount =
        entries.countP (fun x => !x.accessErr && !x.isDir && isAudioFile x.path) ∧
      0 < entries.countP (fun x => !x.accessErr && !x.isDir && isAudioFile x.path) ∧
      (scanLibraryOptimizedCollect true (some T) entries).totalFiles =
        (walkCollect true (some T) ⟨0, []⟩ entries).1.filesToProcess.length ∧
      (getScanProgress true (scanLibraryOptimizedCollect true (some T) entries).totalFiles 0
        "").totalFiles = (scanLibraryOptimizedCollect true (some T) entries).totalFiles := by
  intro T entries e hmem hae hid haf hcut
  refine ⟨?_, ?_, ?_, scanOptCollect_totalFiles true (some T) entries, rfl⟩
  · intro hx
    rcases walkCollect_cutoff T entries ⟨0, []⟩ e hx with h1 | h2
    · simp at h1
    · omega
  · have h := walkCollect_total true (some T) entries ⟨0, []⟩
    simpa using h
  · rw [List.countP_pos]
    exact ⟨e, hmem, by simp [hae, hid, haf]⟩

/-- Witness for C2: the modification-time-50 candidate under marker 100
is excluded from the work list, while the internal candidate count (2)
still includes it and the exposed TotalFiles equals the work-list
length. -/
theorem C2_incremental_cutoff_amended_witness :
    oldFileEntry ∉
      (walkCollect true (some 100) ⟨0, []⟩ [oldFileEntry, newFileEntry]).1.filesToProcess ∧
    (walkCollect true (some 100) ⟨0, []⟩ [oldFileEntry, newFileEntry]).1.totalFileCount =
      [oldFileEntry, newFileEntry].countP
        (fun x => !x.accessErr && !x.isDir && isAudioFile x.path) := by
  have h := C2_incremental_cutoff_amended 100 [oldFileEntry, newFileEntry] oldFileEntry
    (by decide) (by decide) (by decide) (by decide) (by decide)
  exact ⟨h.1, h.2.1⟩

/-- Counterexample for C2 as stated: with marker 100 and two candidates
(mod times 50 and 200), the internal candidate count is 2 but the
Progress Tracker exposes TotalFiles = 1 - the skipped candidate is NOT
included in the exposed totalCandidates. -/
theorem C2_exposed_total_counterexample :
    (walkCollect true (some 100) ⟨0, []⟩ [oldFileEntry, newFileEntry]).1.totalFileCount = 2 ∧
    (scanLibraryOptimizedCollect true (some 100) [oldFileEntry, newFileEntry]).totalFiles = 1 ∧
    (scanLibraryOptimizedCollect true (some 100) [oldFileEntry, newFileEntry]).totalFiles ≠
      2 := by
  refine ⟨by decide, by decide, by decide⟩

/-- C3 (amended): the walk callback of ScanLibraryOptimized swallows
every access error (including the error filepath.Walk reports for a
missing or unreadable root), so the Walk never returns an error: for a
missing root the scan finds zero candidates and completes immediately -
no batch dispatched, isScanning cleared - but lastError stays empty and
the operation returns nil instead of an error (the fatal branch of the
source is unreachable). -/
theorem C3_root_error_swallowed_amended :
    (∀ (inc : Bool) (lst : Option Int) (entries : List WalkEntry) (st : CollectState),
      (walkCollect inc lst st entries).2 = none) ∧
    (∀ (inc : Bool) (lst : Option Int) (p : String) (mt sz : Int),
      scanLibraryOptimizedCollect inc lst [⟨p, false, mt, sz, true⟩] =
        ⟨0, ⟨50, 2, false⟩, false, "", ScanDispatch.emptyCompleted, none⟩) :=
  ⟨fun inc lst entries st => walkCollect_no_error inc lst entries st,
   fun inc lst p mt sz => rfl⟩

/-- Counterexample for C3 as stated: a walk over a missing root (the
callback is invoked once, with the access error) leaves lastError empty,
returns no error, and reports the scan as completed-empty - the claim
demands lastError be set and an error returned. -/
theorem C3_no_error_reported_counterexample :
    (scanLibraryOptimizedCollect true none [⟨"/music", false, 0, 0, true⟩]).returnedError =
      none ∧
    (scanLibraryOptimizedCollect true none [⟨"/music", false, 0, 0, true⟩]).lastError = "" ∧
    (scanLibraryOptimizedCollect true none [⟨"/music", false, 0, 0, true⟩]).outcome =
      ScanDispatch.emptyCompleted ∧
    (scanLibraryOptimizedCollect true none [⟨"/music", false, 0, 0, true⟩]).isScanning =
      false :=
  ⟨rfl, rfl, rfl, rfl⟩

/-! ## Lemmas for the idempotence of re-scanning (C6)

Rows are only ever appended by the lookup-then-insert steps, so a
find?-lookup that succeeds keeps succeeding with the same row, and a
second scan of the same files resolves every lookup without inserting. -/

theorem find?_append_some {α : Type} (p : α → Bool) (l₁ l₂ : List α) (a : α)
    (h : l₁.find? p = some a) : (l₁ ++ l₂).find? p = some a := by
  rw [List.find?_append, h]
  rfl

theorem getOrCreateArtistOptimized_found (c : Catalog) (n : String) (row : ArtistRow)
    (h : c.artists.find? (artistPred (artistNameKey n)) = some row) :
    getOrCreateArtistOptimized c n = (row.id, c) := by
  simp only [getOrCreateArtistOptimized, h]

theorem getOrCreateArtistOptimized_albums (c : Catalog) (n : String) :
    (getOrCreateArtistOptimized c n).2.albums = c.albums := by
  simp only [getOrCreateArtistOptimized]
  cases h : c.artists.find? (artistPred (artistNameKey n)) <;> rfl

theorem getOrCreateArtistOptimized_songs (c : Catalog) (n : String) :
    (getOrCreateArtistOptimized c n).2.songs = c.songs := by
  simp only [getOrCreateArtistOptimized]
  cases h : c.artists.find? (artistPred (artistNameKey n)) <;> rfl

theorem getOrCreateArtistOptimized_artists (c : Catalog) (n : String) :
    ∃ Δ, (getOrCreateArtistOptimized c n).2.artists = c.artists ++ Δ := by
  simp only [getOrCreateArtistOptimized]
  cases h : c.artists.find? (artistPred (artistNameKey n))
  · exact ⟨_, rfl⟩
  · exact ⟨[], by simp⟩

theorem getOrCreateArtistOptimized_post (c : Catalog) (n : String) :
    ∃ row : ArtistRow,
      (getOrCreateArtistOptimized c n).2.artists.find? (artistPred (artistNameKey n)) =
        some row ∧ row.id = (getOrCreateArtistOptimized c n).1 := by
  cases h : c.artists.find? (artistPred (artistNameKey n)) with
  | some a =>
    rw [getOrCreateArtistOptimized_found c n a h]
    exact ⟨a, h, rfl⟩
  | none =>
    refine ⟨⟨c.nextArtistId, artistNameKey n⟩, ?_, ?_⟩ <;>
      simp only [getOrCreateArtistOptimized, h]
    rw [List.find?_append, h]
    simp [artistPred]

theorem getOrCreateAlbumOptimized_found (c : Catalog) (n : String) (aid : Nat) (y : Int)
    (g : String) (row : AlbumRow)
    (h : c.albums.find? (albumPred (albumNameKey n) aid) = some row) :
    getOrCreateAlbumOptimized c n aid y g = (row.id, c) := by
  simp only [getOrCreateAlbumOptimized, h]

theorem getOrCreateAlbumOptimized_artists (c : Catalog) (n : String) (aid : Nat) (y : Int)
    (g : String) : (getOrCreateAlbumOptimized c n aid y g).2.artists = c.artists := by
  simp only [getOrCreateAlbumOptimized]
  cases h : c.albums.find? (albumPred (albumNameKey n) aid) <;> rfl

theorem getOrCreateAlbumOptimized_songs (c : Catalog) (n : String) (aid : Nat) (y : Int)
    (g : String) : (getOrCreateAlbumOptimized c n aid y g).2.songs = c.songs := by
  simp only [getOrCreateAlbumOptimized]
  cases h : c.albums.find? (albumPred (albumNameKey n) aid) <;> rfl

theorem getOrCreateAlbumOptimized_albums (c : Catalog) (n : String) (aid : Nat) (y : Int)
    (g : String) :
    ∃ Δ, (getOrCreateAlbumOptimized c n aid y g).2.albums = c.albums ++ Δ := by
  simp only [getOrCreateAlbumOptimized]
  cases h : c.albums.find? (albumPred (albumNameKey n) aid)
  · exact ⟨_, rfl⟩
  · exact ⟨[], by simp⟩

theorem getOrCreateAlbumOptimized_post (c : Catalog) (n : String) (aid : Nat) (y : Int)
    (g : String) :
    ((getOrCreateAlbumOptimized c n aid y g).2.albums.find?
      (albumPred (albumNameKey n) aid)).isSome = true := by
  cases h : c.albums.find? (albumPred (albumNameKey n) aid) with
  | some a =>
    rw [getOrCreateAlbumOptimized_found c n aid y g a h]
    simp [h]
  | none =>
    simp only [getOrCreateAlbumOptimized, h]
    rw [List.find?_append, h]
    simp [albumPred]

theorem insertOrUpdateSongOptimized_artists (c : Catalog) (f : AudioFile) (aid alid : Nat) :
    (insertOrUpdateSongOptimized c f aid alid).artists = c.artists := by
  simp only [insertOrUpdateSongOptimized]
  split <;> rfl

theorem insertOrUpdateSongOptimized_albums (c : Catalog) (f : AudioFile) (aid alid : Nat) :
    (insertOrUpdateSongOptimized c f aid alid).albums = c.albums := by
  simp only [insertOrUpdateSongOptimized]
  split <;> rfl

theorem insertOrUpdateSongOptimized_any_self (c : Catalog) (f : AudioFile) (aid alid : Nat) :
    (insertOrUpdateSongOptimized c f aid alid).songs.any (songPred f.path) = true := by
  simp only [insertOrUpdateSongOptimized]
  cases h : c.songs.any (songPred f.path)
  · simp only [h, Bool.false_eq_true, ite_false]
    simp [songPred]
  · simp only [h, ite_true]
    rw [List.any_map, List.any_eq_true]
    rw [List.any_eq_true] at h
    obtain ⟨s, hs, hps⟩ := h
    refine ⟨s, hs, ?_⟩
    have hps' : s.path = f.path := by simpa [songPred] using hps
    simp [songPred, hps']

theorem insertOrUpdateSongOptimized_any_mono (c : Catalog) (f : AudioFile) (aid alid : Nat)
    (p : String) (h : c.songs.any (songPred p) = true) :
    (insertOrUpdateSongOptimized c f aid alid).songs.any (songPred p) = true := by
  simp only [insertOrUpdateSongOptimized]
  cases hq : c.songs.any (songPred f.path)
  · simp only [hq, Bool.false_eq_true, ite_false]
    simp [h]
  · simp only [hq, ite_true]
    rw [List.any_map, List.any_eq_true]
    rw [List.any_eq_true] at h
    obtain ⟨s, hs, hps⟩ := h
    refine ⟨s, hs, ?_⟩
    by_cases hsf : songPred f.path s = true
    · have h1 : s.path = p := by simpa [songPred] using hps
      have h2 : s.path = f.path := by simpa [songPred] using hsf
      have h3 : f.path = p := by rw [← h2]; exact h1
      simp only [Function.comp, hsf, ite_true]
      simp [songPred, h3]
    · simp only [Function.comp]
      rw [if_neg hsf]
      exact hps

theorem insertOrUpdateSongOptimized_length_of_present (c : Catalog) (f : AudioFile)
    (aid alid : Nat) (h : c.songs.any (songPred f.path) = true) :
    (insertOrUpdateSongOptimized c f aid alid).songs.length = c.songs.length := by
  simp only [insertOrUpdateSongOptimized, h, ite_true]
  simp

theorem processFileOk_eq (c : Catalog) (f : AudioFile) :
    processFileOk c f =
      insertOrUpdateSongOptimized
        (getOrCreateAlbumOptimized (getOrCreateArtistOptimized c f.artist).2 f.album
          (getOrCreateArtistOptimized c f.artist).1 f.year f.genre).2
        f (getOrCreateArtistOptimized c f.artist).1
        (getOrCreateAlbumOptimized (getOrCreateArtistOptimized c f.artist).2 f.album
          (getOrCreateArtistOptimized c f.artist).1 f.year f.genre).1 := rfl

theorem hasFile_processFileOk (c : Catalog) (f : AudioFile) :
    hasFile (processFileOk c f) f := by
  rw [processFileOk_eq]
  obtain ⟨row, hfind, hid⟩ := getOrCreateArtistOptimized_post c f.artist
  refine ⟨row, ?_, ?_, ?_⟩
  · rw [insertOrUpdateSongOptimized_artists, getOrCreateAlbumOptimized_artists]
    exact hfind
  · rw [insertOrUpdateSongOptimized_albums, hid]
    exact getOrCreateAlbumOptimized_post _ _ _ _ _
  · exact insertOrUpdateSongOptimized_any_self _ _ _ _

theorem hasFile_mono (c : Catalog) (g f : AudioFile) (h : hasFile c f) :
    hasFile (processFileOk c g) f := by
  obtain ⟨row, hart, halb, hsong⟩ := h
  rw [processFileOk_eq]
  obtain ⟨Δa, hΔa⟩ := getOrCreateArtistOptimized_artists c g.artist
  obtain ⟨Δb, hΔb⟩ := getOrCreateAlbumOptimized_albums
    (getOrCreateArtistOptimized c g.artist).2 g.album
    (getOrCreateArtistOptimized c g.artist).1 g.year g.genre
  refine ⟨row, ?_, ?_, ?_⟩
  · rw [insertOrUpdateSongOptimized_artists, getOrCreateAlbumOptimized_artists, hΔa]
    exact find?_append_some _ _ _ _ hart
  · rw [insertOrUpdateSongOptimized_albums, hΔb, getOrCreateArtistOptimized_albums]
    obtain ⟨al, hal⟩ := Option.isSome_iff_exists.mp halb
    rw [find?_append_some _ _ _ _ hal]
    rfl
  · apply insertOrUpdateSongOptimized_any_mono
    rw [getOrCreateAlbumOptimized_songs, getOrCreateArtistOptimized_songs]
    exact hsong

theorem counts_noop_of_hasFile (c : Catalog) (f : AudioFile) (h : hasFile c f) :
    catalogCounts (processFileOk c f) = catalogCounts c := by
  obtain ⟨row, hart, halb, hsong⟩ := h
  have hc1 : (getOrCreateArtistOptimized c f.artist).2 = c := by
    rw [getOrCreateArtistOptimized_found c f.artist row hart]
  have haid : (getOrCreateArtistOptimized c f.artist).1 = row.id := by
    rw [getOrCreateArtistOptimized_found c f.artist row hart]
  obtain ⟨al, hal⟩ := Option.isSome_iff_exists.mp halb
  have hc2 : (getOrCreateAlbumOptimized (getOrCreateArtistOptimized c f.artist).2 f.album
      (getOrCreateArtistOptimized c f.artist).1 f.year f.genre).2 = c := by
    rw [hc1, haid, getOrCreateAlbumOptimized_found c f.album row.id f.year f.genre al hal]
  rw [processFileOk_eq, hc2]
  unfold catalogCounts
  rw [insertOrUpdateSongOptimized_artists, insertOrUpdateSongOptimized_albums,
    insertOrUpdateSongOptimized_length_of_present c f _ _ hsong]

theorem scanAllFiles_cons (c : Catalog) (g : AudioFile) (gs : List AudioFile) :
    scanAllFiles c (g :: gs) = scanAllFiles (processFileOk c g) gs := rfl

theorem hasFile_scanAll (fs : List AudioFile) :
    ∀ (c : Catalog) (f : AudioFile), hasFile c f → hasFile (scanAllFiles c fs) f := by
  induction fs with
  | nil => intro c f h; exact h
  | cons g gs ih => intro c f h; exact ih _ f (hasFile_mono c g f h)

theorem scanAll_establishes (fs : List AudioFile) :
    ∀ (c : Catalog) (f : AudioFile), f ∈ fs → hasFile (scanAllFiles c fs) f := by
  induction fs with
  | nil => intro c f h; simp at h
  | cons g gs ih =>
    intro c f h
    rcases List.mem_cons.mp h with h1 | h2
    · rw [h1]
      exact hasFile_scanAll gs _ g (hasFile_processFileOk c g)
    · exact ih _ f h2

theorem scanAll_counts_noop (fs : List AudioFile) :
    ∀ c : Catalog, (∀ f ∈ fs, hasFile c f) →
      catalogCounts (scanAllFiles c fs) = catalogCounts c := by
  induction fs with
  | nil => intro c _; rfl
  | cons g gs ih =>
    intro c h
    have hg := h g (List.mem_cons_self g gs)
    rw [scanAllFiles_cons,
      ih _ (fun f hf => hasFile_mono c g f (h f (List.mem_cons_of_mem g hf))),
      counts_noop_of_hasFile c g hg]

/-- C6: running a full scan (all steps succeeding) twice over the same
file list leaves the artist, album and track row counts of the first
pass unchanged, from any starting catalog - lookups by normalized name
(artists), by (name, artist id) (albums) and the path-keyed upsert
resolve to the rows written by the first pass; concretely a
1-artist/1-album/2-track library counts (1, 1, 2) after one scan and
still (1, 1, 2) after a second. -/
theorem C6_full_scan_idempotent :
    (∀ (c : Catalog) (fs : List AudioFile),
      catalogCounts (scanAllFiles (scanAllFiles c fs) fs) =
        catalogCounts (scanAllFiles c fs)) ∧
    catalogCounts (scanAllFiles emptyCatalog demoLibrary) = (1, 1, 2) ∧
    catalogCounts (scanAllFiles (scanAllFiles emptyCatalog demoLibrary) demoLibrary) =
      (1, 1, 2) := by
  refine ⟨fun c fs => scanAll_counts_noop fs (scanAllFiles c fs)
      (fun f hf => scanAll_establishes fs c f hf), ?_, ?_⟩ <;> decide

/-! ## Lemmas about the plain scan's clear-then-process structure -/

theorem processPass_effects (items : String → PlainItem) :
    ∀ (entries : List WalkEntry) (c : Catalog) (n : Nat),
      (processPass items c n entries).2.2 =
        (entries.filter (fun e => !e.accessErr && !e.isDir && isAudioFile e.path)).map
          (fun e => ScanEffect.attemptFile e.path) := by
  intro entries
  induction entries with
  | nil => intro c n; rfl
  | cons e es ih =>
    intro c n
    simp only [processPass, List.filter_cons]
    cases h : (!e.accessErr && !e.isDir && isAudioFile e.path) <;>
      simp [h, ih]

theorem clearLoop_all_deletes (failAt : Option Nat) :
    ∀ (qs : List String) (db : PlainDB) (i : Nat),
      (clearLoop failAt db i qs).2.2.all isDeleteEffect = true := by
  intro qs
  induction qs with
  | nil => intro db i; rfl
  | cons q qs' ih =>
    intro db i
    by_cases h : failAt = some i <;> simp [clearLoop, h, isDeleteEffect, ih]

theorem clearExistingData_none (db : PlainDB) :
    clearExistingData db none =
      (⟨0, 0, 0, 0, 0, ⟨[], [], [], db.catalog.nextArtistId, db.catalog.nextAlbumId⟩⟩, none,
       clearTableNames.map ScanEffect.deleteTable) := rfl

/-- C10: every run of the plain full scan deletes the favorites,
ratings, play_history, playlist_songs, playlists, songs, albums and
artists tables - in that order - before attempting any file (the effect
trace is the DELETEs followed by the per-candidate attempts), leaving
the catalog empty when the cleanup succeeds; a cleanup failure changes
neither the scan's progress state nor its returned (nil) error - the
scan just continues. -/
theorem C10_full_scan_destructive_rebuild :
    clearTableNames = ["favorites", "ratings", "play_history", "playlist_songs", "playlists",
      "songs", "albums", "artists"] ∧
    (∀ db : PlainDB, clearExistingData db none =
      (⟨0, 0, 0, 0, 0, ⟨[], [], [], db.catalog.nextArtistId, db.catalog.nextAlbumId⟩⟩, none,
       clearTableNames.map ScanEffect.deleteTable)) ∧
    (∀ (db : PlainDB) (entries : List WalkEntry) (clearFailAt : Option Nat)
       (items : String → PlainItem),
      (scanLibrary db entries clearFailAt items).effects =
        (clearExistingData db clearFailAt).2.2 ++
          (entries.filter (fun e => !e.accessErr && !e.isDir && isAudioFile e.path)).map
            (fun e => ScanEffect.attemptFile e.path) ∧
      (clearExistingData db clearFailAt).2.2.all isDeleteEffect = true ∧
      (scanLibrary db entries clearFailAt items).state =
        (scanLibrary db entries none items).state ∧
      (scanLibrary db entries clearFailAt items).returnedError = none) := by
  refine ⟨rfl, fun db => rfl, fun db entries clearFailAt items => ⟨?_, ?_, ?_, rfl⟩⟩
  · show (clearExistingData db clearFailAt).2.2 ++
      (processPass items (clearExistingData db clearFailAt).1.catalog 0 entries).2.2 = _
    rw [processPass_effects]
  · exact clearLoop_all_deletes clearFailAt clearTableNames db 0
  · have h2 : (scanLibrary db entries none items).state =
        ⟨countPass entries, 0 + countPass entries, false, ""⟩ := by
      show (⟨countPass entries,
        (processPass items (clearExistingData db none).1.catalog 0 entries).2.1,
        false, ""⟩ : PlainScanState) = _
      rw [processPass_processed]
    rw [h2]
    show (⟨countPass entries,
      (processPass items (clearExistingData db clearFailAt).1.catalog 0 entries).2.1,
      false, ""⟩ : PlainScanState) = _
    rw [processPass_processed]

end Castafiore
